import Mathlib

/-!
Shallow embedding of `src/app.py` (a Flask payment backend) and proofs about
its amount codec, status classifier and the two request handlers.

The amount codec is built on Python's `decimal` module with the default
context: arbitrary-precision decimal parsing, `quantize(Decimal("0.01"))`
with ROUND_HALF_EVEN, a working precision of 28 significant digits, and the
`InvalidOperation` / `TypeError` exception behaviour of the constructor,
of `quantize`, and of ordered comparison against NaN.
-/

namespace App

/-- Characters stripped from both ends of a numeric string by Python's
`str.strip` (the Unicode whitespace set used by `Decimal.__new__`). -/
def isPySpace (c : Char) : Bool :=
  (9 ≤ c.toNat && c.toNat ≤ 13) || (28 ≤ c.toNat && c.toNat ≤ 32) ||
  c.toNat = 0x85 || c.toNat = 0xa0 || c.toNat = 0x1680 ||
  (0x2000 ≤ c.toNat && c.toNat ≤ 0x200a) || c.toNat = 0x2028 || c.toNat = 0x2029 ||
  c.toNat = 0x202f || c.toNat = 0x205f || c.toNat = 0x3000

def stripChars (l : List Char) : List Char :=
  ((l.dropWhile isPySpace).reverse.dropWhile isPySpace).reverse

/-- `Decimal.__new__` deletes every underscore of the stripped string before
matching the numeric grammar. -/
def removeUnderscores (l : List Char) : List Char :=
  l.filter (fun c => c ≠ '_')

def digitsToNat (l : List Char) : Nat :=
  l.foldl (fun a c => a * 10 + (c.toNat - 48)) 0

/-- A value of Python's `Decimal`: a finite sign/coefficient/exponent triple,
a signed infinity, or a (quiet or signaling) NaN. -/
inductive PyDecimal where
  | finite (sign : Bool) (coeff : Nat) (exp : Int)
  | infinite (sign : Bool)
  | nan (signaling : Bool)
deriving DecidableEq

def asciiLower (c : Char) : Char :=
  if 65 ≤ c.toNat && c.toNat ≤ 90 then Char.ofNat (c.toNat + 32) else c

/-- The exponent field of the numeric grammar: an optional sign followed by a
nonempty run of digits. -/
def parseExpPart (l : List Char) : Option Int :=
  match l with
  | [] => none
  | c :: rest =>
    if c = '+' then
      if !rest.isEmpty && rest.all Char.isDigit then some (Int.ofNat (digitsToNat rest)) else none
    else if c = '-' then
      if !rest.isEmpty && rest.all Char.isDigit then some (-Int.ofNat (digitsToNat rest)) else none
    else
      if (c :: rest).all Char.isDigit then some (Int.ofNat (digitsToNat (c :: rest))) else none

/-- The numeric alternative of the `Decimal` grammar, after the optional sign:
`(\d* (\.\d*)?) ([eE] sign? \d+)?` with at least one digit in the integer or
fractional part.  Returns coefficient and exponent. -/
def parseNumericBody (l : List Char) : Option (Nat × Int) :=
  let intPart := l.takeWhile Char.isDigit
  let rest₁ := l.dropWhile Char.isDigit
  match rest₁ with
  | [] => if intPart.isEmpty then none else some (digitsToNat intPart, 0)
  | c :: rest₂ =>
    if c = '.' then
      let fracPart := rest₂.takeWhile Char.isDigit
      let rest₃ := rest₂.dropWhile Char.isDigit
      if intPart.isEmpty && fracPart.isEmpty then none
      else
        match rest₃ with
        | [] => some (digitsToNat (intPart ++ fracPart), -Int.ofNat fracPart.length)
        | e :: rest₄ =>
          if e = 'e' || e = 'E' then
            match parseExpPart rest₄ with
            | some ex => some (digitsToNat (intPart ++ fracPart), ex - Int.ofNat fracPart.length)
            | none => none
          else none
    else if (c = 'e' || c = 'E') && !intPart.isEmpty then
      match parseExpPart rest₂ with
      | some ex => some (digitsToNat intPart, ex)
      | none => none
    else none

/-- The special-value alternatives of the grammar, case-insensitive:
`Inf`, `Infinity`, `NaN` and `sNaN` with optional diagnostic digits. -/
def parseSpecialBody (sign : Bool) (l : List Char) : Option PyDecimal :=
  let lw := l.map asciiLower
  if lw = ['i', 'n', 'f'] || lw = ['i', 'n', 'f', 'i', 'n', 'i', 't', 'y'] then
    some (.infinite sign)
  else if lw.take 3 = ['n', 'a', 'n'] && (lw.drop 3).all Char.isDigit then
    some (.nan false)
  else if lw.take 4 = ['s', 'n', 'a', 'n'] && (lw.drop 4).all Char.isDigit then
    some (.nan true)
  else none

def decFromCleaned (l : List Char) : Option PyDecimal :=
  match l with
  | [] => none
  | c :: rest =>
    let sign := c = '-'
    let body := if c = '-' || c = '+' then rest else l
    match parseNumericBody body with
    | some (co, ex) => some (.finite sign co ex)
    | none => parseSpecialBody sign body

/-- `Decimal(s)` for a string argument: strip whitespace, delete underscores,
then match the numeric grammar; `none` is the constructor's
`InvalidOperation`. -/
def pyDecimalOfString (s : String) : Option PyDecimal :=
  decFromCleaned (removeUnderscores (stripChars s.data))

/-- Round `n / d` to the nearest natural number, ties to the even one
(ROUND_HALF_EVEN on the magnitude). -/
def roundHalfEven (n d : Nat) : Nat :=
  if 2 * (n % d) < d then n / d
  else if d < 2 * (n % d) then n / d + 1
  else if (n / d) % 2 = 0 then n / d else n / d + 1

inductive QuantizeResult where
  | ok (sign : Bool) (cents : Nat)
  | nanResult
  | invalidOperation
deriving DecidableEq

/-- `d.quantize(Decimal("0.01"))` under the default context: round the value
to exponent -2 with ROUND_HALF_EVEN; signal `InvalidOperation` when the
resulting coefficient would exceed the context precision of 28 digits
(that is, when `cents ≥ 10 ^ 28`), on any infinity, and on a signaling NaN;
a quiet NaN propagates quietly. -/
def quantizeTwo : PyDecimal → QuantizeResult
  | .finite sign co ex =>
    let cents :=
      if 0 ≤ ex + 2 then co * 10 ^ (ex + 2).toNat
      else roundHalfEven co (10 ^ (-(ex + 2)).toNat)
    if cents < 10 ^ 28 then .ok sign cents else .invalidOperation
  | .infinite _ => .invalidOperation
  | .nan signaling => if signaling then .invalidOperation else .nanResult

/-- Outcome of `_parse_amount_to_cents`: a successful integer number of cents,
a raised `ValueError` with its message, or the `InvalidOperation` that the
`amount <= 0` comparison signals on a quiet NaN — an exception that escapes
the function (and the route's `except ValueError`) uncaught. -/
inductive ParseOutcome where
  | ok (cents : Int)
  | valueError (msg : String)
  | uncaughtInvalidOperation
deriving DecidableEq

def signedVal (sign : Bool) (cents : Nat) : Int :=
  if sign then -Int.ofNat cents else Int.ofNat cents

def _parse_amount_to_cents (amount_raw : Option String) : ParseOutcome :=
  match amount_raw with
  | none => .valueError "Invalid amount."
  | some s =>
    match pyDecimalOfString s with
    | none => .valueError "Invalid amount."
    | some d =>
      match quantizeTwo d with
      | .invalidOperation => .valueError "Invalid amount."
      | .nanResult => .uncaughtInvalidOperation
      | .ok sign cents =>
        if signedVal sign cents ≤ 0 then .valueError "Amount must be greater than zero."
        else .ok (signedVal sign cents)

/-- Number of decimal digits of `n` (1 for 0), via a fuelled helper so that
the definition is structurally recursive. -/
def numDigitsAux : Nat → Nat → Nat
  | 0, _ => 1
  | fuel + 1, n => if n < 10 then 1 else numDigitsAux fuel (n / 10) + 1

def numDigits (n : Nat) : Nat := numDigitsAux n n

def padTwo (n : Nat) : String :=
  if n < 10 then "0" ++ toString n else toString n

/-- `f"{Decimal(c) / Decimal('100'):.2f}"`.  When `|c| < 10 ^ 28` the division
is exact and the rendering is the digits of `|c|` split two places before the
end; beyond 28 digits the division first rounds the quotient to 28
significant digits (ROUND_HALF_EVEN). -/
def _format_amount_from_cents (amount_cents : Int) : String :=
  let n := amount_cents.natAbs
  let sign := if amount_cents < 0 then "-" else ""
  if n < 10 ^ 28 then
    sign ++ toString (n / 100) ++ "." ++ padTwo (n % 100)
  else
    let k := numDigits n - 28
    let m := roundHalfEven n (10 ^ k)
    if k = 1 then sign ++ toString (m / 10) ++ "." ++ toString (m % 10) ++ "0"
    else sign ++ toString (m * 10 ^ (k - 2)) ++ ".00"

/-- Python's `a or b` on two optional strings: `a` unless it is falsy
(`None` or the empty string). -/
def pyOr (a b : Option String) : Option String :=
  match a with
  | some s => if s = "" then b else some s
  | none => b

/-- `_status_from_card_error`, over the two attributes consulted by
`getattr(error, "code", None) or getattr(error.error, "code", None)`. -/
def _status_from_card_error (code errorCode : Option String) : String :=
  let c := pyOr code errorCode
  if c = some "incorrect_cvc" then "live"
  else if c = some "insufficient_funds" then "live"
  else "false"

/-- Python truthiness of an optional string field. -/
def truthy (v : Option String) : Bool :=
  match v with
  | some s => s != ""
  | none => false

/-- `email or None`. -/
def orNone (v : Option String) : Option String :=
  match v with
  | some s => if s = "" then none else some s
  | none => none

/-- The JSON body of `/create-payment-intent`: each field read with
`data.get`, hence `none` when absent. -/
structure CreateRequest where
  amount : Option String
  payment_method_id : Option String
  email : Option String
deriving DecidableEq

/-- The fields of the processor's PaymentIntent object that the handlers
read back. -/
structure Intent where
  status : String
  id : String
  client_secret : String
  amount : Int
deriving DecidableEq

/-- Behaviour of the stripe client call, modelled as an oracle: a returned
intent, a raised `stripe.error.CardError` (with the `code` attribute of the
exception, the `code` of its nested `error` object, and `user_message`), or
any other raised exception with its internal detail. -/
inductive ProcResult where
  | success (intent : Intent)
  | cardError (code : Option String) (errorCode : Option String) (user_message : String)
  | otherFailure (detail : String)
deriving DecidableEq

/-- The JSON payloads the handlers produce (plus the framework's page for an
exception that no handler catches). -/
inductive RespBody where
  | errorObj (error : String)
  | statusMessage (status message : String)
  | actionRequired (status payment_intent_id client_secret : String)
  | succeeded (status message payment_intent_id client_secret : String)
  | unhandledException
deriving DecidableEq

/-- The keyword arguments of `stripe.PaymentIntent.create`. -/
structure CreateCall where
  amount : Int
  currency : String
  payment_method : Option String
  receipt_email : Option String
  confirm : Bool
deriving DecidableEq

/-- The `/create-payment-intent` handler.  Returns the response (body and
HTTP status) together with the list of calls made to the processor. -/
def create_payment_intent (api_key : Option String) (req : CreateRequest) (proc : ProcResult) :
    (RespBody × Nat) × List CreateCall :=
  if truthy api_key = false then ((.errorObj "Stripe secret key not set.", 500), [])
  else if truthy req.payment_method_id = false then
    ((.errorObj "Payment method is required.", 400), [])
  else
    match _parse_amount_to_cents req.amount with
    | .valueError msg => ((.statusMessage "false" msg, 400), [])
    | .uncaughtInvalidOperation => ((.unhandledException, 500), [])
    | .ok amount_cents =>
      let call : CreateCall :=
        { amount := amount_cents, currency := "usd", payment_method := req.payment_method_id,
          receipt_email := orNone req.email, confirm := true }
      match proc with
      | .success intent =>
        if intent.status = "requires_action" then
          ((.actionRequired "requires_action" intent.id intent.client_secret, 200), [call])
        else
          ((.succeeded "true" ("your donation sucessfull " ++ _format_amount_from_cents amount_cents)
              intent.id intent.client_secret, 200), [call])
      | .cardError code errorCode user_message =>
        ((.statusMessage (_status_from_card_error code errorCode) user_message, 402), [call])
      | .otherFailure _ =>
        ((.statusMessage "false" "Unable to create payment intent.", 500), [call])

/-- The `/confirm-payment-intent` handler.  `api_key` mirrors the module
global `stripe.api_key`, which this handler never consults.  The trace lists
the ids passed to `stripe.PaymentIntent.confirm`. -/
def confirm_payment_intent (api_key : Option String) (payment_intent_id : Option String)
    (proc : ProcResult) : (RespBody × Nat) × List String :=
  if truthy payment_intent_id = false then
    ((.statusMessage "false" "Payment intent id is required.", 400), [])
  else
    let pid := payment_intent_id.getD ""
    match proc with
    | .success intent =>
      if intent.status = "requires_action" then
        ((.actionRequired "requires_action" intent.id intent.client_secret, 200), [pid])
      else
        ((.succeeded "true" ("your donation sucessfull " ++ _format_amount_from_cents intent.amount)
            intent.id intent.client_secret, 200), [pid])
    | .cardError code errorCode user_message =>
      ((.statusMessage (_status_from_card_error code errorCode) user_message, 402), [pid])
    | .otherFailure _ =>
      ((.statusMessage "false" "Unable to confirm payment intent.", 500), [pid])

/-- The rational value denoted by a finite decimal. -/
def decValue (sign : Bool) (co : Nat) (ex : Int) : ℚ :=
  (if sign then -1 else 1) * (co : ℚ) * (10 : ℚ) ^ ex

/-- `c` is the integer nearest to `x`, ties going to the even integer. -/
def IsNearestEven (c : ℤ) (x : ℚ) : Prop :=
  |x - c| < 1 / 2 ∨ (|x - c| = 1 / 2 ∧ Even c)

/-- Stated from the spec's words for the round-trip law: a positive amount of
`units` dollars and `hundredths` cents rendered with exactly two fractional
digits. -/
def specRenderTwoDecimals (units hundredths : Nat) : String :=
  toString units ++ "." ++ padTwo hundredths

theorem isNearestEven_intCast (c : ℤ) : IsNearestEven c (c : ℚ) := by
  left
  rw [sub_self, abs_zero]
  norm_num

theorem pos_of_isNearestEven {c : ℤ} {x : ℚ} (h : IsNearestEven c x) (hc : 0 < c) : 0 < x := by
  have h12 : |x - c| ≤ 1 / 2 := by
    rcases h with h | ⟨he, _⟩
    · exact le_of_lt h
    · exact le_of_eq he
  have h1 := (abs_le.mp h12).1
  have hc1 : (1 : ℚ) ≤ (c : ℚ) := by exact_mod_cast hc
  linarith

theorem isNearestEven_unique {c c' : ℤ} {x : ℚ} (h : IsNearestEven c x)
    (h' : IsNearestEven c' x) : c = c' := by
  have htri : |(c : ℚ) - c'| ≤ |x - c| + |x - c'| := by
    calc |(c : ℚ) - c'| = |((c : ℚ) - x) + (x - c')| := by congr 1; ring
    _ ≤ |(c : ℚ) - x| + |x - c'| := abs_add _ _
    _ = |x - c| + |x - c'| := by rw [abs_sub_comm]
  have hint : ∀ {a b : ℤ}, |(a : ℚ) - b| < 1 → a = b := by
    intro a b hab
    have h1 : |a - b| < (1 : ℤ) := by
      have h2 : |((a - b : ℤ) : ℚ)| < 1 := by push_cast; exact hab
      rw [← Int.cast_abs] at h2
      exact_mod_cast h2
    have h3 := abs_lt.mp h1
    omega
  rcases h with h | ⟨he, hev⟩ <;> rcases h' with h' | ⟨he', hev'⟩
  · exact hint (lt_of_le_of_lt htri (by linarith))
  · exact hint (lt_of_le_of_lt htri (by linarith))
  · exact hint (lt_of_le_of_lt htri (by linarith))
  · rcases (abs_eq (by norm_num : (0 : ℚ) ≤ 1 / 2)).mp he with h1 | h1 <;>
      rcases (abs_eq (by norm_num : (0 : ℚ) ≤ 1 / 2)).mp he' with h2 | h2
    · have hq : (c : ℚ) = c' := by linarith
      exact_mod_cast hq
    · have hq : (c' : ℚ) = c + 1 := by linarith
      have hz : c' = c + 1 := by exact_mod_cast hq
      obtain ⟨a, ha⟩ := hev
      obtain ⟨b, hb⟩ := hev'
      omega
    · have hq : (c : ℚ) = c' + 1 := by linarith
      have hz : c = c' + 1 := by exact_mod_cast hq
      obtain ⟨a, ha⟩ := hev
      obtain ⟨b, hb⟩ := hev'
      omega
    · have hq : (c : ℚ) = c' := by linarith
      exact_mod_cast hq

theorem isNearestEven_roundHalfEven (n d : Nat) (hd : 0 < d) :
    IsNearestEven (roundHalfEven n d : ℤ) ((n : ℚ) / (d : ℚ)) := by
  have hdq : (0 : ℚ) < (d : ℚ) := by exact_mod_cast hd
  have hdq0 : (d : ℚ) ≠ 0 := ne_of_gt hdq
  have hmod : d * (n / d) + n % d = n := Nat.div_add_mod n d
  have hrd : n % d < d := Nat.mod_lt n hd
  have hcast : (d : ℚ) * ((n / d : ℕ) : ℚ) + ((n % d : ℕ) : ℚ) = (n : ℚ) := by
    exact_mod_cast hmod
  have hsub : (n : ℚ) / d - ((n / d : ℕ) : ℚ) = ((n % d : ℕ) : ℚ) / d := by
    field_simp
    linarith
  have hxq : (n : ℚ) / d - (((n / d : ℕ) : ℚ) + 1) = ((n % d : ℕ) : ℚ) / d - 1 := by
    rw [← hsub]; ring
  unfold roundHalfEven
  by_cases h1 : 2 * (n % d) < d
  · rw [if_pos h1]
    left
    simp only [Int.cast_natCast]
    rw [hsub]
    rw [abs_of_nonneg (by positivity)]
    rw [div_lt_iff hdq]
    have hc : ((2 * (n % d) : ℕ) : ℚ) < ((d : ℕ) : ℚ) := by exact_mod_cast h1
    push_cast at hc
    linarith
  · rw [if_neg h1]
    by_cases h2 : d < 2 * (n % d)
    · rw [if_pos h2]
      left
      simp only [Nat.cast_add, Nat.cast_one, Int.cast_add, Int.cast_natCast, Int.cast_one]
      rw [hxq]
      have hlt1 : ((n % d : ℕ) : ℚ) / d < 1 := by
        rw [div_lt_one hdq]
        exact_mod_cast hrd
      rw [abs_of_nonpos (by linarith)]
      have hc : ((d : ℕ) : ℚ) < ((2 * (n % d) : ℕ) : ℚ) := by exact_mod_cast h2
      push_cast at hc
      have hhalf : (1 : ℚ) / 2 < ((n % d : ℕ) : ℚ) / d := by
        rw [div_lt_div_iff (by norm_num) hdq]
        linarith
      linarith
    · rw [if_neg h2]
      have heq : 2 * (n % d) = d := by omega
      have hhalf : ((n % d : ℕ) : ℚ) / d = 1 / 2 := by
        rw [div_eq_div_iff hdq0 (by norm_num : (2 : ℚ) ≠ 0)]
        have hc : ((2 * (n % d) : ℕ) : ℚ) = ((d : ℕ) : ℚ) := by exact_mod_cast heq
        push_cast at hc
        linarith
      by_cases h3 : (n / d) % 2 = 0
      · rw [if_pos h3]
        right
        constructor
        · simp only [Int.cast_natCast]
          rw [hsub, hhalf]
          norm_num
        · exact Int.even_iff.mpr (by omega)
      · rw [if_neg h3]
        right
        constructor
        · simp only [Nat.cast_add, Nat.cast_one, Int.cast_add, Int.cast_natCast, Int.cast_one]
          rw [hxq, hhalf]
          norm_num
        · exact Int.even_iff.mpr (by omega)

theorem ten_zpow_pos (ex : Int) : (0 : ℚ) < (10 : ℚ) ^ ex :=
  zpow_pos (by norm_num) ex

theorem hundred_mul_decValue (co : Nat) (ex : Int) :
    100 * decValue false co ex = (co : ℚ) * (10 : ℚ) ^ (ex + 2) := by
  have h : decValue false co ex = (co : ℚ) * (10 : ℚ) ^ ex := by
    simp [decValue]
  rw [h, zpow_add₀ (by norm_num : (10 : ℚ) ≠ 0) ex 2]
  have h2 : (10 : ℚ) ^ (2 : ℤ) = 100 := by norm_num
  rw [h2]
  ring

/-- Evaluation of `_parse_amount_to_cents` on a string parsed as a positive
finite decimal whose quantized coefficient is within precision. -/
theorem parse_eval_finite {s : String} {co : Nat} {ex : Int} {m : Nat}
    (hp : pyDecimalOfString s = some (.finite false co ex))
    (hm : (if 0 ≤ ex + 2 then co * 10 ^ (ex + 2).toNat
        else roundHalfEven co (10 ^ (-(ex + 2)).toNat)) = m)
    (hmb : m < 10 ^ 28) (hmpos : 0 < m) :
    _parse_amount_to_cents (some s) = .ok (m : ℤ) := by
  have hq : quantizeTwo (.finite false co ex) = .ok false m := by
    have he : quantizeTwo (.finite false co ex)
        = (if (if 0 ≤ ex + 2 then co * 10 ^ (ex + 2).toNat
              else roundHalfEven co (10 ^ (-(ex + 2)).toNat)) < 10 ^ 28
           then QuantizeResult.ok false (if 0 ≤ ex + 2 then co * 10 ^ (ex + 2).toNat
              else roundHalfEven co (10 ^ (-(ex + 2)).toNat))
           else QuantizeResult.invalidOperation) := rfl
    rw [he, hm, if_pos hmb]
  have hsv : signedVal false m = (m : ℤ) := rfl
  have hnotle : ¬ signedVal false m ≤ 0 := by
    rw [hsv]
    omega
  simp only [_parse_amount_to_cents, hp, hq, if_neg hnotle, hsv]
  rw [if_neg (show ¬ ((m : ℤ) ≤ 0) by omega)]

/-- Core lemma: on a string parsed as a finite decimal, the parse returns the
half-even rounding of 100 times the denoted value whenever that rounding is
positive and below the 28-digit precision bound. -/
theorem parse_ok_of_isNearestEven {s : String} {sign : Bool} {co : Nat} {ex : Int} {c : ℤ}
    (hp : pyDecimalOfString s = some (.finite sign co ex))
    (hne : IsNearestEven c (100 * decValue sign co ex))
    (h0 : 0 < c) (hb : c < 10 ^ 28) :
    _parse_amount_to_cents (some s) = .ok c := by
  have hxpos : 0 < 100 * decValue sign co ex := pos_of_isNearestEven hne h0
  have hsign : sign = false := by
    cases sign with
    | false => rfl
    | true =>
      exfalso
      have h10 : (0 : ℚ) < (10 : ℚ) ^ ex := ten_zpow_pos ex
      have hco : (0 : ℚ) ≤ (co : ℚ) := Nat.cast_nonneg co
      have hdv : decValue true co ex ≤ 0 := by
        have hd : decValue true co ex = -((co : ℚ) * (10 : ℚ) ^ ex) := by
          simp [decValue]
        rw [hd]
        nlinarith
      linarith
  subst hsign
  have hnear : IsNearestEven ((if 0 ≤ ex + 2 then co * 10 ^ (ex + 2).toNat
      else roundHalfEven co (10 ^ (-(ex + 2)).toNat) : ℕ) : ℤ)
      (100 * decValue false co ex) := by
    by_cases h2 : 0 ≤ ex + 2
    · have hval : 100 * decValue false co ex = ((co * 10 ^ (ex + 2).toNat : ℕ) : ℚ) := by
        rw [hundred_mul_decValue, Nat.cast_mul, Nat.cast_pow, Nat.cast_ofNat]
        have hex2 : ex + 2 = (((ex + 2).toNat : ℕ) : ℤ) := (Int.toNat_of_nonneg h2).symm
        generalize hK : (ex + 2).toNat = K at hex2 ⊢
        rw [hex2, zpow_natCast]
      rw [hval, if_pos h2]
      have h' := isNearestEven_intCast ((co * 10 ^ (ex + 2).toNat : ℕ) : ℤ)
      simpa using h'
    · have hk : (((-(ex + 2)).toNat : ℕ) : ℤ) = -(ex + 2) := Int.toNat_of_nonneg (by omega)
      have hval : 100 * decValue false co ex
          = (co : ℚ) / ((10 ^ (-(ex + 2)).toNat : ℕ) : ℚ) := by
        rw [hundred_mul_decValue, Nat.cast_pow, Nat.cast_ofNat, div_eq_mul_inv]
        have hex2 : ex + 2 = -((((-(ex + 2)).toNat : ℕ)) : ℤ) := by omega
        generalize hK : (-(ex + 2)).toNat = K at hex2 ⊢
        rw [hex2, zpow_neg, zpow_natCast]
      rw [hval, if_neg h2]
      exact isNearestEven_roundHalfEven co _ (pow_pos (by norm_num) _)
  have hcm : c = ((if 0 ≤ ex + 2 then co * 10 ^ (ex + 2).toNat
      else roundHalfEven co (10 ^ (-(ex + 2)).toNat) : ℕ) : ℤ) :=
    isNearestEven_unique hne hnear
  have hmpos : 0 < (if 0 ≤ ex + 2 then co * 10 ^ (ex + 2).toNat
      else roundHalfEven co (10 ^ (-(ex + 2)).toNat)) := by omega
  have hmb : (if 0 ≤ ex + 2 then co * 10 ^ (ex + 2).toNat
      else roundHalfEven co (10 ^ (-(ex + 2)).toNat)) < 10 ^ 28 := by
    have hb' : ((if 0 ≤ ex + 2 then co * 10 ^ (ex + 2).toNat
        else roundHalfEven co (10 ^ (-(ex + 2)).toNat) : ℕ) : ℤ) < 10 ^ 28 := hcm ▸ hb
    exact_mod_cast hb'
  rw [hcm]
  exact parse_eval_finite hp rfl hmb hmpos

/-- C1 (amended): for every string that parses as a finite decimal number,
`_parse_amount_to_cents` returns the value rounded to two fractional digits
(half to even) multiplied by 100, as an integer, provided that rounded cents
value is strictly positive and — the amendment the context precision forces —
below `10 ^ 28`. -/
theorem parse_to_cents_correct_below_precision (s : String) (sign : Bool) (co : Nat) (ex : Int)
    (c : ℤ) (hp : pyDecimalOfString s = some (.finite sign co ex))
    (hne : IsNearestEven c (100 * decValue sign co ex))
    (h0 : 0 < c) (hb : c < 10 ^ 28) :
    _parse_amount_to_cents (some s) = .ok c :=
  parse_ok_of_isNearestEven hp hne h0 hb

/-- Witness for C1 at the claim's own examples: "10" gives 1000 cents and
"9.999" rounds to 1000 cents; "0.004" rounds to 0 and is rejected. -/
theorem parse_to_cents_correct_below_precision_witness :
    _parse_amount_to_cents (some "10") = .ok 1000 ∧
    _parse_amount_to_cents (some "9.999") = .ok 1000 ∧
    _parse_amount_to_cents (some "0.004") = .valueError "Amount must be greater than zero." := by
  have hv10 : 100 * decValue false 10 0 = ((1000 : ℤ) : ℚ) := by
    rw [hundred_mul_decValue]
    rw [show (0 : ℤ) + 2 = ((2 : ℕ) : ℤ) by norm_num, zpow_natCast]
    norm_num
  have h10 : IsNearestEven 1000 (100 * decValue false 10 0) := by
    rw [hv10]
    exact isNearestEven_intCast 1000
  have hv9999 : 100 * decValue false 9999 (-3) = 9999 / 10 := by
    rw [hundred_mul_decValue]
    rw [show (-3 : ℤ) + 2 = -((1 : ℕ) : ℤ) by norm_num, zpow_neg, zpow_natCast]
    norm_num
  have h9999 : IsNearestEven 1000 (100 * decValue false 9999 (-3)) := by
    rw [hv9999]
    left
    rw [abs_sub_lt_iff]
    norm_num
  exact ⟨parse_to_cents_correct_below_precision "10" false 10 0 1000 (by decide) h10
      (by decide) (by decide),
    parse_to_cents_correct_below_precision "9.999" false 9999 (-3) 1000 (by decide) h9999
      (by decide) (by decide),
    by decide⟩

/-- C1 counterexample: "1e28" parses as the decimal number `10 ^ 28`, which is
its own two-digit rounding and strictly positive with cents value `10 ^ 30`,
yet the function rejects it with "Invalid amount." — `quantize` signals
`InvalidOperation` because the rounded coefficient needs 31 digits, more than
the default context precision of 28. -/
theorem parse_to_cents_precision_counterexample :
    pyDecimalOfString "1e28" = some (.finite false 1 28) ∧
    IsNearestEven ((10 : ℤ) ^ 30) (100 * decValue false 1 28) ∧
    (0 : ℤ) < 10 ^ 30 ∧
    _parse_amount_to_cents (some "1e28") ≠ .ok ((10 : ℤ) ^ 30) ∧
    _parse_amount_to_cents (some "1e28") = .valueError "Invalid amount." := by
  refine ⟨by decide, ?_, by decide, by decide, by decide⟩
  have hv : 100 * decValue false 1 28 = (((10 : ℤ) ^ 30 : ℤ) : ℚ) := by
    rw [hundred_mul_decValue]
    rw [show (28 : ℤ) + 2 = ((30 : ℕ) : ℤ) by norm_num, zpow_natCast]
    push_cast
    ring
  rw [hv]
  exact isNearestEven_intCast _

/-- C2 (code bug): amount string "NaN" is not a numeric amount, yet instead of
the `ValueError` the claim requires, the quiet NaN survives `quantize` and the
`amount <= 0` comparison raises `decimal.InvalidOperation`, which no handler
catches: the route answers with the framework's 500 page instead of a 400. -/
theorem parse_nan_escapes_uncaught :
    _parse_amount_to_cents (some "NaN") = .uncaughtInvalidOperation ∧
    create_payment_intent (some "sk_test") ⟨some "NaN", some "pm_1", none⟩ (.otherFailure "e")
      = ((.unhandledException, 500), []) :=
  ⟨by decide, by decide⟩

/-- C3: the status classifier maps the resolved error code "incorrect_cvc" and
"insufficient_funds" to "live" and every other (or absent) code to "false". -/
theorem status_classifier_table (code errorCode : Option String) :
    _status_from_card_error code errorCode =
      if pyOr code errorCode = some "incorrect_cvc"
          ∨ pyOr code errorCode = some "insufficient_funds"
      then "live" else "false" := by
  simp only [_status_from_card_error]
  by_cases h1 : pyOr code errorCode = some "incorrect_cvc"
  · rw [if_pos h1, if_pos (Or.inl h1)]
  · rw [if_neg h1]
    by_cases h2 : pyOr code errorCode = some "insufficient_funds"
    · rw [if_pos h2, if_pos (Or.inr h2)]
    · rw [if_neg h2, if_neg (by tauto)]

/-- C4: in `create_payment_intent` the configured-secret check runs first and
the `payment_method_id` presence check second, both before amount parsing: a
falsy key gives the 500 config error whatever the request holds, and a truthy
key with a falsy `payment_method_id` gives the 400 whatever the amount is. -/
theorem create_payment_check_order (api_key : Option String) (req : CreateRequest)
    (proc : ProcResult) :
    (truthy api_key = false →
      create_payment_intent api_key req proc
        = ((.errorObj "Stripe secret key not set.", 500), [])) ∧
    (truthy api_key = true → truthy req.payment_method_id = false →
      create_payment_intent api_key req proc
        = ((.errorObj "Payment method is required.", 400), [])) := by
  constructor
  · intro hk
    unfold create_payment_intent
    rw [if_pos hk]
  · intro hk hpm
    unfold create_payment_intent
    rw [if_neg (by simp [hk]), if_pos hpm]

/-- Witness for C4: no key beats an unparsable amount; missing payment method
beats an unparsable amount. -/
theorem create_payment_check_order_witness :
    create_payment_intent none ⟨some "not a number", some "pm_1", none⟩ (.otherFailure "x")
      = ((.errorObj "Stripe secret key not set.", 500), []) ∧
    create_payment_intent (some "sk_test") ⟨some "not a number", none, none⟩ (.otherFailure "x")
      = ((.errorObj "Payment method is required.", 400), []) :=
  ⟨(create_payment_check_order none ⟨some "not a number", some "pm_1", none⟩
      (.otherFailure "x")).1 (by decide),
   (create_payment_check_order (some "sk_test") ⟨some "not a number", none, none⟩
      (.otherFailure "x")).2 (by decide) (by decide)⟩

/-- C5: with a configured key and a payment method present, a request whose
amount raises the validation error yields the 400 response with label "false"
and the validation message, and the processor is never called (empty trace),
whatever the processor would have answered. -/
theorem create_payment_invalid_amount_fails_fast (api_key : Option String) (req : CreateRequest)
    (proc : ProcResult) (msg : String)
    (hk : truthy api_key = true) (hpm : truthy req.payment_method_id = true)
    (hamt : _parse_amount_to_cents req.amount = .valueError msg) :
    create_payment_intent api_key req proc = ((.statusMessage "false" msg, 400), []) := by
  unfold create_payment_intent
  rw [if_neg (by simp [hk]), if_neg (by simp [hpm]), hamt]

/-- Witness for C5 at amount "0". -/
theorem create_payment_invalid_amount_fails_fast_witness :
    create_payment_intent (some "sk_test") ⟨some "0", some "pm_1", none⟩ (.otherFailure "boom")
      = ((.statusMessage "false" "Amount must be greater than zero.", 400), []) :=
  create_payment_invalid_amount_fails_fast (some "sk_test") ⟨some "0", some "pm_1", none⟩
    (.otherFailure "boom") "Amount must be greater than zero." (by decide) (by decide) (by decide)

/-- C6: a card-decline error from the processor is answered, by both handlers,
with 402, the classified status label, and the processor's user-facing message
verbatim; any other processor failure is answered with 500 and a fixed generic
message that does not depend on the exception's detail. -/
theorem processor_error_translation (api_key : Option String) (req : CreateRequest)
    (pid : Option String) (code errorCode : Option String) (umsg detail : String) (cents : Int)
    (hk : truthy api_key = true) (hpm : truthy req.payment_method_id = true)
    (hamt : _parse_amount_to_cents req.amount = .ok cents) (hpid : truthy pid = true) :
    (create_payment_intent api_key req (.cardError code errorCode umsg)).1
      = (.statusMessage (_status_from_card_error code errorCode) umsg, 402) ∧
    (create_payment_intent api_key req (.otherFailure detail)).1
      = (.statusMessage "false" "Unable to create payment intent.", 500) ∧
    (confirm_payment_intent api_key pid (.cardError code errorCode umsg)).1
      = (.statusMessage (_status_from_card_error code errorCode) umsg, 402) ∧
    (confirm_payment_intent api_key pid (.otherFailure detail)).1
      = (.statusMessage "false" "Unable to confirm payment intent.", 500) := by
  have hknot : ¬ (truthy api_key = false) := by simp [hk]
  have hpmnot : ¬ (truthy req.payment_method_id = false) := by simp [hpm]
  have hpidnot : ¬ (truthy pid = false) := by simp [hpid]
  refine ⟨?_, ?_, ?_, ?_⟩
  · unfold create_payment_intent
    rw [if_neg hknot, if_neg hpmnot, hamt]
  · unfold create_payment_intent
    rw [if_neg hknot, if_neg hpmnot, hamt]
  · unfold confirm_payment_intent
    rw [if_neg hpidnot]
  · unfold confirm_payment_intent
    rw [if_neg hpidnot]

/-- Witness for C6: an insufficient-funds decline gives 402 with label "live"
and the processor's message; a timeout on confirm gives the generic 500. -/
theorem processor_error_translation_witness :
    (create_payment_intent (some "sk_test") ⟨some "25.00", some "pm_1", none⟩
        (.cardError (some "insufficient_funds") none "Your card has insufficient funds.")).1
      = (.statusMessage "live" "Your card has insufficient funds.", 402) ∧
    (confirm_payment_intent (some "sk_test") (some "pi_1") (.otherFailure "socket timeout")).1
      = (.statusMessage "false" "Unable to confirm payment intent.", 500) := by
  have h := processor_error_translation (some "sk_test") ⟨some "25.00", some "pm_1", none⟩
      (some "pi_1") (some "insufficient_funds") none "Your card has insufficient funds."
      "socket timeout" 2500 (by decide) (by decide) (by decide) (by decide)
  refine ⟨?_, h.2.2.2⟩
  rw [h.1]
  decide

/-- C7: on a successful non-requires_action authorization both handlers answer
status "true" with the intent's id, its client secret, and a message carrying
the formatted amount — the locally parsed cents for create, and the amount the
processor reports back (`intent.amount`) for confirm. -/
theorem success_response_shape (api_key : Option String) (req : CreateRequest)
    (pid : Option String) (intent : Intent) (cents : Int)
    (hk : truthy api_key = true) (hpm : truthy req.payment_method_id = true)
    (hamt : _parse_amount_to_cents req.amount = .ok cents)
    (hst : ¬ intent.status = "requires_action") (hpid : truthy pid = true) :
    (create_payment_intent api_key req (.success intent)).1
      = (.succeeded "true" ("your donation sucessfull " ++ _format_amount_from_cents cents)
          intent.id intent.client_secret, 200) ∧
    (confirm_payment_intent api_key pid (.success intent)).1
      = (.succeeded "true" ("your donation sucessfull "
            ++ _format_amount_from_cents intent.amount)
          intent.id intent.client_secret, 200) := by
  have hknot : ¬ (truthy api_key = false) := by simp [hk]
  have hpmnot : ¬ (truthy req.payment_method_id = false) := by simp [hpm]
  have hpidnot : ¬ (truthy pid = false) := by simp [hpid]
  constructor
  · unfold create_payment_intent
    rw [if_neg hknot, if_neg hpmnot, hamt]
    simp only [if_neg hst]
  · unfold confirm_payment_intent
    rw [if_neg hpidnot]
    simp only [if_neg hst]

/-- Witness for C7 on a confirmed 2500-cent intent. -/
theorem success_response_shape_witness :
    (create_payment_intent (some "sk_test") ⟨some "25.00", some "pm_1", none⟩
        (.success ⟨"succeeded", "pi_1", "cs_1", 2500⟩)).1
      = (.succeeded "true" "your donation sucessfull 25.00" "pi_1" "cs_1", 200) ∧
    (confirm_payment_intent (some "sk_test") (some "pi_1")
        (.success ⟨"succeeded", "pi_1", "cs_1", 2500⟩)).1
      = (.succeeded "true" "your donation sucessfull 25.00" "pi_1" "cs_1", 200) := by
  have h := success_response_shape (some "sk_test") ⟨some "25.00", some "pm_1", none⟩
      (some "pi_1") ⟨"succeeded", "pi_1", "cs_1", 2500⟩ 2500
      (by decide) (by decide) (by decide) (by decide) (by decide)
  refine ⟨?_, ?_⟩
  · rw [h.1]
    decide
  · rw [h.2]
    decide

/-- C8 (amended): for every string parsing as a finite decimal of value `v`
with `100 v` a positive integer `m` — the amendment — below `10 ^ 28`, the
parse returns exactly `m` cents and formatting those cents renders `v` with
exactly two fractional digits. -/
theorem roundtrip_two_decimals (s : String) (sign : Bool) (co : Nat) (ex : Int) (m : Nat)
    (hp : pyDecimalOfString s = some (.finite sign co ex))
    (hm : 100 * decValue sign co ex = (m : ℚ))
    (h0 : 0 < m) (hb : m < 10 ^ 28) :
    _parse_amount_to_cents (some s) = .ok (m : ℤ) ∧
    _format_amount_from_cents (m : ℤ) = specRenderTwoDecimals (m / 100) (m % 100) := by
  constructor
  · apply parse_ok_of_isNearestEven hp _ (by exact_mod_cast h0) (by exact_mod_cast hb)
    rw [hm]
    have h' := isNearestEven_intCast ((m : ℕ) : ℤ)
    simpa using h'
  · have hneg : ¬ ((m : ℤ) < 0) := by omega
    simp only [_format_amount_from_cents, Int.natAbs_ofNat]
    rw [if_neg hneg, if_pos hb]
    simp [specRenderTwoDecimals]

/-- Witness for C8: "12.34" parses to 1234 cents and 1234 cents format back to
"12.34". -/
theorem roundtrip_two_decimals_witness :
    _parse_amount_to_cents (some "12.34") = .ok 1234 ∧
    _format_amount_from_cents 1234 = "12.34" := by
  have hv : 100 * decValue false 1234 (-2) = ((1234 : ℕ) : ℚ) := by
    rw [hundred_mul_decValue]
    rw [show (-2 : ℤ) + 2 = 0 by norm_num, zpow_zero]
    norm_num
  have h := roundtrip_two_decimals "12.34" false 1234 (-2) 1234 (by decide) hv
    (by decide) (by decide)
  refine ⟨h.1, ?_⟩
  rw [show (1234 : ℤ) = ((1234 : ℕ) : ℤ) from rfl, h.2]
  decide

/-- C8 counterexample: "1e28" is a valid decimal string whose value is a
positive integer (so exactly representable at two decimal places), but
`_parse_amount_to_cents` rejects it, so the round trip does not exist for it:
the law needs the amendment `v < 10 ^ 26`. -/
theorem roundtrip_precision_counterexample :
    pyDecimalOfString "1e28" = some (.finite false 1 28) ∧
    100 * decValue false 1 28 = (((10 : ℕ) ^ 30 : ℕ) : ℚ) ∧
    0 < (10 : ℕ) ^ 30 ∧
    _parse_amount_to_cents (some "1e28") = .valueError "Invalid amount." := by
  refine ⟨by decide, ?_, by norm_num, by decide⟩
  rw [hundred_mul_decValue]
  rw [show (28 : ℤ) + 2 = ((30 : ℕ) : ℤ) by norm_num, zpow_natCast]
  push_cast
  ring

/-- C9: `confirm_payment_intent` runs no configured-secret check: with no key
configured and an id present it still calls the processor's confirm operation
(nonempty trace), behaves identically for every key value, and never answers
the local 500 config error that `create_payment_intent` has. -/
theorem confirm_payment_no_config_check (pid : String) (proc : ProcResult) (hpid : ¬ pid = "") :
    (confirm_payment_intent none (some pid) proc).2 = [pid] ∧
    (∀ api_key : Option String,
      confirm_payment_intent api_key (some pid) proc
        = confirm_payment_intent none (some pid) proc) ∧
    (confirm_payment_intent none (some pid) proc).1
      ≠ (.errorObj "Stripe secret key not set.", 500) := by
  have htnot : ¬ (truthy (some pid) = false) := by simp [truthy, hpid]
  refine ⟨?_, fun k => rfl, ?_⟩
  · unfold confirm_payment_intent
    rw [if_neg htnot]
    cases proc with
    | success intent =>
      by_cases hsi : intent.status = "requires_action"
      · simp only [if_pos hsi, Option.getD_some]
      · simp only [if_neg hsi, Option.getD_some]
    | cardError code errorCode user_message => rfl
    | otherFailure detail => rfl
  · unfold confirm_payment_intent
    rw [if_neg htnot]
    cases proc with
    | success intent =>
      by_cases hsi : intent.status = "requires_action"
      · simp [if_pos hsi]
      · simp [if_neg hsi]
    | cardError code errorCode user_message => simp
    | otherFailure detail => simp

/-- Witness for C9: no key, valid id — the confirm call still happens and the
answer is not the config error. -/
theorem confirm_payment_no_config_check_witness :
    (confirm_payment_intent none (some "pi_1") (.otherFailure "no api key")).2 = ["pi_1"] ∧
    (confirm_payment_intent none (some "pi_1") (.otherFailure "no api key")).1
      ≠ (.errorObj "Stripe secret key not set.", 500) := by
  have h := confirm_payment_no_config_check "pi_1" (.otherFailure "no api key") (by decide)
  exact ⟨h.1, h.2.2⟩

/-- C10: the two-digit rounding is half-to-even, so the half-cent ties 0.125
and 0.145 go down to the even cents 12 and 14, the tie 0.135 goes up to 14,
and 0.005 rounds to zero and is rejected. -/
theorem parse_half_even_ties :
    _parse_amount_to_cents (some "0.125") = .ok 12 ∧
    _parse_amount_to_cents (some "0.135") = .ok 14 ∧
    _parse_amount_to_cents (some "0.145") = .ok 14 ∧
    _parse_amount_to_cents (some "0.005") = .valueError "Amount must be greater than zero." :=
  ⟨by decide, by decide, by decide, by decide⟩

end App
